import Mathlib

/-!
Shallow embedding of the openmumble push-to-talk dictation pipeline
(src/openmumble: app.py, audio.py, processor.py, transcriber.py) and proofs of
the specification's claims about it.

External collaborators (the Whisper engine call, the Claude API call, the
clipboard/paste subprocesses, the sounddevice stream) are modelled as oracle
parameters; everything the repository itself computes is translated directly
from the Python source.  Audio samples are modelled as exact rationals.
-/

/-- Characters removed by Python's `str.strip()` with no argument
(ASCII whitespace, as produced by the transcription texts handled here). -/
def pyIsSpace (c : Char) : Bool :=
  c == ' ' || c == '\t' || c == '\n' || c == '\r' || c == '\x0b' || c == '\x0c'

/-- Python `str.strip()` on a character list: drop leading and trailing
whitespace. -/
def pyStripList (l : List Char) : List Char :=
  ((l.dropWhile pyIsSpace).reverse.dropWhile pyIsSpace).reverse

/-- Python `str.strip()`. -/
def pyStrip (s : String) : String :=
  ⟨pyStripList s.data⟩

/-- Python `str.lower()` on the ASCII hotkey names involved: lowercase each
character. -/
def pyLower (s : String) : String :=
  ⟨s.data.map Char.toLower⟩

/-- Python `str.rstrip(chars)`: drop trailing characters belonging to
`chars`. -/
def pyRstrip (chars : List Char) (s : String) : String :=
  ⟨(s.data.reverse.dropWhile (fun c => chars.contains c)).reverse⟩

/-! ### Key model and hotkey resolution (app.py) -/

/-- A pynput key as seen by the listener callbacks: either a named special key
(`keyboard.Key`, identified by its `.name` string, e.g. `"ctrl_l"`) or a
character key (`keyboard.KeyCode`). -/
inductive PKey where
  | special (name : String)
  | keyCode (c : Char)
deriving DecidableEq, Repr

/-- The `_SPECIAL_KEYS` table of app.py: config hotkey names mapped to the
`.name` of the pynput `Key` object they resolve to. -/
def _SPECIAL_KEYS : List (String × String) :=
  [("ctrl", "ctrl_l"), ("alt", "alt_l"), ("shift", "shift_l"), ("cmd", "cmd_l"),
   ("option", "alt_l"),
   ("f1", "f1"), ("f2", "f2"), ("f3", "f3"), ("f4", "f4"), ("f5", "f5"),
   ("f6", "f6"), ("f7", "f7"), ("f8", "f8"), ("f9", "f9"), ("f10", "f10"),
   ("f11", "f11"), ("f12", "f12")]

/-- `App._resolve_hotkey`: a recognized name (lowercased) resolves to its
special key, a single-character spec resolves to that character's `KeyCode`,
anything else raises `ValueError`. -/
def resolveHotkey (name : String) : Except String PKey :=
  let lower := pyLower name
  match _SPECIAL_KEYS.lookup lower with
  | some k => Except.ok (PKey.special k)
  | none =>
      if name.length = 1 then Except.ok (PKey.keyCode (name.data.headD ' '))
      else Except.error ("Unknown hotkey: " ++ name)

/-- `App._key_matches`: for a special-key hotkey, a special key matches when
the two key names agree after `rstrip("_lr")`, or when the keys are equal; a
`KeyCode` never matches a special-key hotkey.  For a character hotkey, only
the equal `KeyCode` matches. -/
def keyMatches (hotkey : PKey) (key : PKey) : Bool :=
  match hotkey, key with
  | .special hname, .special kname =>
      pyRstrip ['_', 'l', 'r'] kname == pyRstrip ['_', 'l', 'r'] hname
        || kname == hname
  | .special _, .keyCode _ => false
  | .keyCode hc, .keyCode kc => kc == hc
  | .keyCode _, .special _ => false

/-! ### Recording session (audio.py) -/

/-- A captured frame chunk is a matrix of samples: each row is one sample
across the configured channels, as delivered by the sounddevice callback. -/
abbrev FrameChunk := List (List ℚ)

/-- The `Recorder`: accumulated frame chunks plus whether an input stream is
open. -/
structure Recorder where
  frames : List FrameChunk
  streamOpen : Bool
deriving DecidableEq, Repr

/-- `np.concatenate(frames, axis=0)`: stack the chunks' rows in arrival
order. -/
def npConcatenate (chunks : List FrameChunk) : List (List ℚ) :=
  chunks.foldr (fun a b => a ++ b) []

/-- `audio.mean(axis=1)`: reduce each row (one sample across channels) to its
arithmetic mean. -/
def npMeanAxis1 (rows : List (List ℚ)) : List ℚ :=
  rows.map (fun row => row.sum / (row.length : ℚ))

/-- `Recorder.start`: clear any previous frames and open a fresh input
stream. -/
def Recorder.start (_r : Recorder) : Recorder :=
  { frames := [], streamOpen := true }

/-- The sounddevice callback: append a copy of the incoming chunk. -/
def Recorder.callback (r : Recorder) (chunk : FrameChunk) : Recorder :=
  { r with frames := r.frames ++ [chunk] }

/-- `Recorder.stop`: close the stream; with no captured frames return the
empty buffer, otherwise concatenate the chunks and flatten to mono by
averaging across channels. -/
def Recorder.stop (r : Recorder) : List ℚ × Recorder :=
  if r.frames.isEmpty then
    ([], { frames := [], streamOpen := false })
  else
    (npMeanAxis1 (npConcatenate r.frames), { frames := [], streamOpen := false })

/-! ### Hotkey-driven orchestrator state (app.py) -/

/-- The orchestrator's mutable state: the `_recording` flag and the
recorder. -/
structure AppState where
  recording : Bool
  recorder : Recorder
deriving DecidableEq, Repr

/-- Outcome of a release event: nothing happened, "no audio captured" was
reported, or a pipeline run was dispatched on a background thread with the
captured buffer. -/
inductive ReleaseOut where
  | noop
  | noAudio
  | dispatch (audio : List ℚ)
deriving DecidableEq, Repr

/-- `App._on_press`: a matching press while not recording sets the flag and
starts the recorder; anything else is a no-op. -/
def onPress (hotkey : PKey) (s : AppState) (key : PKey) : AppState :=
  if keyMatches hotkey key && !s.recording then
    { recording := true, recorder := s.recorder.start }
  else s

/-- `App._on_release`: a matching release while recording clears the flag and
stops the recorder; an empty buffer is reported as "no audio captured",
otherwise the buffer is dispatched to a background pipeline run.  Anything
else is a no-op. -/
def onRelease (hotkey : PKey) (s : AppState) (key : PKey) :
    AppState × ReleaseOut :=
  if keyMatches hotkey key && s.recording then
    let stopped := s.recorder.stop
    if stopped.1.length = 0 then
      ({ recording := false, recorder := stopped.2 }, ReleaseOut.noAudio)
    else
      ({ recording := false, recorder := stopped.2 }, ReleaseOut.dispatch stopped.1)
  else (s, ReleaseOut.noop)

/-- A raw key event delivered by the pynput listener. -/
inductive KEvent where
  | press (key : PKey)
  | release (key : PKey)
deriving DecidableEq, Repr

/-- One listener callback step of the orchestrator. -/
def appStep (hotkey : PKey) (s : AppState) (e : KEvent) : AppState :=
  match e with
  | .press k => onPress hotkey s k
  | .release k => (onRelease hotkey s k).1

/-! ### Transcription stage (transcriber.py) -/

/-- The `Transcriber` wrapper's own state: whether the Whisper model has been
loaded (`self._model is None` ↔ `modelLoaded = false`). -/
structure Transcriber where
  modelLoaded : Bool
deriving DecidableEq, Repr

/-- `Transcriber.transcribe`: an empty audio array returns `""` at once;
otherwise the model is lazily loaded, the engine (modelled as an oracle
yielding the segment texts) is invoked, each segment text is stripped, the
pieces are joined with single spaces and the result is stripped again. -/
def Transcriber.transcribe (engine : List ℚ → List String) (t : Transcriber)
    (audio : List ℚ) : String × Transcriber :=
  if audio.length = 0 then ("", t)
  else
    let t' : Transcriber := { modelLoaded := true }
    let segs := engine audio
    (pyStrip (String.intercalate " " (segs.map pyStrip)), t')

/-- The audio the warm-up thread of `App.run` passes to `transcribe`:
`np.array([], dtype="float32")`. -/
def warmupAudio : List ℚ := []

/-- The warm-up thread body started by `App.run`. -/
def warmupRun (engine : List ℚ → List String) (t : Transcriber) :
    String × Transcriber :=
  t.transcribe engine warmupAudio

/-! ### Cleanup stage (processor.py) -/

/-- The `Processor`'s state: the configured API key and whether the lazily
constructed API client exists (`self._client is None` ↔
`clientBuilt = false`). -/
structure Processor where
  apiKey : String
  clientBuilt : Bool
deriving DecidableEq, Repr

/-- A record of one network call made by the cleanup stage (the
`messages.create` request with the raw text as user content). -/
inductive ApiCall where
  | messagesCreate (userContent : String)
deriving DecidableEq, Repr

/-- `Processor.cleanup`: blank input is returned untouched; with no API key
the raw text is returned; otherwise the client is built on first use and the
API call (an oracle returning `response.content[0].text` or raising) is made —
its result is stripped, and any exception falls back to the raw text.  Also
returns the processor state after the call and the list of network calls
made. -/
def Processor.cleanup (callApi : String → Except String String)
    (p : Processor) (rawText : String) :
    String × Processor × List ApiCall :=
  if pyStrip rawText = "" then (rawText, p, [])
  else if p.apiKey = "" then (rawText, p, [])
  else
    let p' : Processor := { p with clientBuilt := true }
    match callApi rawText with
    | Except.ok body => (pyStrip body, p', [ApiCall.messagesCreate rawText])
    | Except.error _ => (rawText, p', [ApiCall.messagesCreate rawText])

/-! ### Pipeline run (App._process) -/

/-- A status line / observable event emitted during a pipeline run. -/
inductive RunEvent where
  | noSpeech
  | rawText (text : String)
  | cleanedText (text : String)
  | inserted (text : String)
  | errorReported (message : String)
deriving DecidableEq, Repr

/-- The stateful collaborators of one pipeline, as `App` holds them:
the transcriber and the optional processor (`None` when cleanup is
disabled). -/
structure Pipeline where
  transcriber : Transcriber
  processor : Option Processor
deriving DecidableEq, Repr

/-- The external oracles a run interacts with: the speech-to-text engine, the
cleanup API call, and the text-insertion collaborator (which may raise). -/
structure PipelineEnv where
  engine : List ℚ → List String
  callApi : String → Except String String
  insertText : String → Except String Unit

/-- The trace of one `App._process` invocation: the events it printed, the
invocations of the cleanup collaborator and of the insertion collaborator,
an exception escaping `_process` (if any), and the pipeline state it leaves
behind. -/
structure RunTrace where
  events : List RunEvent
  cleanupCalls : List String
  insertCalls : List String
  escaped : Option String
  final : Pipeline
deriving Repr

/-- `App._process`: transcribe; on empty raw text report "no speech detected"
and return; otherwise report the raw text, run cleanup when a processor is
configured (reporting the cleaned text when it differs), then insert the
final text.  An exception raised by the insertion collaborator escapes
`_process`. -/
def process (env : PipelineEnv) (p : Pipeline) (audio : List ℚ) : RunTrace :=
  let tr := p.transcriber.transcribe env.engine audio
  let rawText := tr.1
  let t' := tr.2
  if rawText = "" then
    { events := [RunEvent.noSpeech], cleanupCalls := [], insertCalls := [],
      escaped := none, final := { p with transcriber := t' } }
  else
    match p.processor with
    | none =>
        match env.insertText rawText with
        | Except.ok _ =>
            { events := [RunEvent.rawText rawText, RunEvent.inserted rawText],
              cleanupCalls := [], insertCalls := [rawText],
              escaped := none, final := { p with transcriber := t' } }
        | Except.error e =>
            { events := [RunEvent.rawText rawText],
              cleanupCalls := [], insertCalls := [rawText],
              escaped := some e, final := { p with transcriber := t' } }
    | some proc =>
        let cl := proc.cleanup env.callApi rawText
        let finalText := cl.1
        let proc' := cl.2.1
        let evs := [RunEvent.rawText rawText]
          ++ (if finalText ≠ rawText then [RunEvent.cleanedText finalText] else [])
        match env.insertText finalText with
        | Except.ok _ =>
            { events := evs ++ [RunEvent.inserted finalText],
              cleanupCalls := [rawText], insertCalls := [finalText],
              escaped := none,
              final := { transcriber := t', processor := some proc' } }
        | Except.error e =>
            { events := evs,
              cleanupCalls := [rawText], insertCalls := [finalText],
              escaped := some e,
              final := { transcriber := t', processor := some proc' } }

/-- A dispatched background run: the daemon thread runs `_process`; an
exception escaping it is caught by the threading machinery and reported to
stderr, leaving the process alive.  Returns the full event stream of the run
and the pipeline state afterwards. -/
def dispatchRun (env : PipelineEnv) (p : Pipeline) (audio : List ℚ) :
    List RunEvent × Pipeline :=
  let tr := process env p audio
  (tr.events ++
     (match tr.escaped with
      | some e => [RunEvent.errorReported e]
      | none => []),
   tr.final)

/-! ### Application construction (App.__init__) -/

/-- An `App` after successful construction: the resolved hotkey and the
initial orchestrator state. -/
structure App where
  hotkey : PKey
  st : AppState
deriving DecidableEq, Repr

/-- `App.__init__` resolves the configured hotkey before any listener is
started; an invalid spec raises there, so no key event is ever handled. -/
def App.build (hotkeySpec : String) : Except String App :=
  match resolveHotkey hotkeySpec with
  | Except.ok k =>
      Except.ok { hotkey := k,
                  st := { recording := false,
                          recorder := { frames := [], streamOpen := false } } }
  | Except.error e => Except.error e

/-- The hotkey names `_resolve_hotkey` recognizes: the keys of
`_SPECIAL_KEYS`. -/
def recognizedHotkeyNames : List String :=
  ["ctrl", "alt", "shift", "cmd", "option", "f1", "f2", "f3", "f4", "f5",
   "f6", "f7", "f8", "f9", "f10", "f11", "f12"]

/-- Whether an `Except` computation returned normally rather than raising. -/
def exceptOk {ε α : Type} : Except ε α → Bool
  | Except.ok _ => true
  | Except.error _ => false

/-! ## Helper lemmas -/

theorem dropWhile_head_not (p : Char → Bool) :
    ∀ (l : List Char) (c : Char) (t : List Char),
      l.dropWhile p = c :: t → p c = false := by
  intro l
  induction l with
  | nil => intro c t h; simp [List.dropWhile] at h
  | cons a as ih =>
    intro c t h
    by_cases hp : p a
    · rw [List.dropWhile_cons_of_pos hp] at h
      exact ih c t h
    · rw [List.dropWhile_cons_of_neg hp] at h
      cases h
      simpa using hp

theorem dropWhile_idem (p : Char → Bool) (l : List Char) :
    (l.dropWhile p).dropWhile p = l.dropWhile p := by
  cases h : l.dropWhile p with
  | nil => simp
  | cons c t =>
    have hc := dropWhile_head_not p l c t h
    simp [List.dropWhile_cons, hc]

theorem dropWhile_eq_append (p : Char → Bool) (l : List Char) :
    ∃ pre, l = pre ++ l.dropWhile p := by
  induction l with
  | nil => exact ⟨[], rfl⟩
  | cons a as ih =>
    by_cases hp : p a
    · obtain ⟨pre, hpre⟩ := ih
      refine ⟨a :: pre, ?_⟩
      rw [List.dropWhile_cons_of_pos hp]
      simpa using hpre
    · exact ⟨[], by rw [List.dropWhile_cons_of_neg hp]; rfl⟩

theorem pyStripList_idem (l : List Char) :
    pyStripList (pyStripList l) = pyStripList l := by
  unfold pyStripList
  set m := l.dropWhile pyIsSpace with hm
  set r := m.reverse.dropWhile pyIsSpace with hr
  have hmfix : m.dropWhile pyIsSpace = m := by
    rw [hm]; exact dropWhile_idem pyIsSpace l
  have hrfix : r.dropWhile pyIsSpace = r := by
    rw [hr]; exact dropWhile_idem pyIsSpace m.reverse
  have h1 : r.reverse.dropWhile pyIsSpace = r.reverse := by
    cases hc : r.reverse with
    | nil => simp
    | cons c t =>
      obtain ⟨pre, hpre⟩ := dropWhile_eq_append pyIsSpace m.reverse
      have hm2 : m = r.reverse ++ pre.reverse := by
        have h' := congrArg List.reverse hpre
        simpa [← hr] using h'
      have hmc : m = c :: (t ++ pre.reverse) := by
        rw [hm2, hc]; simp
      have hpc : pyIsSpace c = false :=
        dropWhile_head_not pyIsSpace m c (t ++ pre.reverse) (by rw [hmfix, hmc])
      simp [List.dropWhile_cons, hpc]
  rw [h1]
  simp [hrfix]

theorem pyStrip_idem (s : String) : pyStrip (pyStrip s) = pyStrip s := by
  unfold pyStrip
  exact congrArg String.mk (pyStripList_idem s.data)


theorem pyStrip_empty : pyStrip "" = "" := rfl

theorem transcribe_fst_stripped (engine : List ℚ → List String)
    (t : Transcriber) (audio : List ℚ) :
    pyStrip (t.transcribe engine audio).1 = (t.transcribe engine audio).1 := by
  unfold Transcriber.transcribe
  split
  · exact pyStrip_empty
  · exact pyStrip_idem _

theorem npConcatenate_eq_flatten :
    ∀ chunks : List FrameChunk, npConcatenate chunks = chunks.flatten
  | [] => rfl
  | c :: cs => by
      show c ++ npConcatenate cs = (c :: cs).flatten
      rw [npConcatenate_eq_flatten cs, List.flatten_cons]

theorem lookup_isSome_iff_mem_keys {β : Type} (l : String) :
    ∀ es : List (String × β),
      (es.lookup l).isSome = true ↔ l ∈ es.map Prod.fst
  | [] => by simp [List.lookup]
  | (k, b) :: es => by
      by_cases hk : l = k
      · simp [List.lookup, hk]
      · have hbeq : (l == k) = false := by simpa using hk
        simp [List.lookup, hbeq, hk, lookup_isSome_iff_mem_keys l es]

/-! ## Claim theorems -/

/-- C1: the recording flag alternates strictly Idle→Recording→Idle over any
sequence of key events — a matching press while not recording sets the flag
and starts the recorder session, a matching release while recording clears
the flag and stops the session, and every other event (non-matching key,
repeated matching press while recording, matching release while idle) leaves
the flag and the recorder's frame buffer — indeed the whole state —
unchanged. -/
theorem c1_hotkey_state_machine (hotkey key : PKey) (s : AppState) :
    (keyMatches hotkey key = false →
       onPress hotkey s key = s ∧ onRelease hotkey s key = (s, ReleaseOut.noop)) ∧
    (keyMatches hotkey key = true → s.recording = false →
       (onPress hotkey s key).recording = true ∧
       (onPress hotkey s key).recorder = s.recorder.start) ∧
    (keyMatches hotkey key = true → s.recording = true →
       onPress hotkey s key = s) ∧
    (keyMatches hotkey key = true → s.recording = true →
       (onRelease hotkey s key).1.recording = false ∧
       (onRelease hotkey s key).1.recorder = (s.recorder.stop).2) ∧
    (keyMatches hotkey key = true → s.recording = false →
       onRelease hotkey s key = (s, ReleaseOut.noop)) := by
  refine ⟨?_, ?_, ?_, ?_, ?_⟩
  · intro hm
    constructor
    · simp [onPress, hm]
    · simp [onRelease, hm]
  · intro hm hr
    constructor
    · simp [onPress, hm, hr]
    · simp [onPress, hm, hr]
  · intro hm hr
    simp [onPress, hm, hr]
  · intro hm hr
    unfold onRelease
    rw [hm, hr]
    simp only [Bool.and_self, if_true]
    split <;> simp
  · intro hm hr
    simp [onRelease, hm, hr]

/-- Witness for C1 at a concrete input: hotkey ctrl_l, a press of ctrl_r in
the idle state flips the flag to recording and starts the recorder. -/
theorem c1_hotkey_state_machine_witness :
    (onPress (PKey.special "ctrl_l")
        { recording := false, recorder := { frames := [], streamOpen := false } }
        (PKey.special "ctrl_r")).recording = true ∧
    (onPress (PKey.special "ctrl_l")
        { recording := false, recorder := { frames := [], streamOpen := false } }
        (PKey.special "ctrl_r")).recorder =
      Recorder.start { frames := [], streamOpen := false } :=
  (c1_hotkey_state_machine (PKey.special "ctrl_l") (PKey.special "ctrl_r")
      { recording := false,
        recorder := { frames := [], streamOpen := false } }).2.1
    (by decide) (by decide)

/-- C5: a matching release with no captured frames — `stop()` returns the
zero-length buffer, the orchestrator reports "no audio captured", ends up
idle, and never dispatches a pipeline run. -/
theorem c5_empty_capture_no_dispatch (hotkey key : PKey) (s : AppState)
    (hm : keyMatches hotkey key = true) (hr : s.recording = true)
    (hf : s.recorder.frames = []) :
    (s.recorder.stop).1 = []
    ∧ (onRelease hotkey s key).2 = ReleaseOut.noAudio
    ∧ (onRelease hotkey s key).1.recording = false
    ∧ ∀ audio, (onRelease hotkey s key).2 ≠ ReleaseOut.dispatch audio := by
  have hstop : s.recorder.stop = ([], { frames := [], streamOpen := false }) := by
    unfold Recorder.stop
    rw [if_pos (by simp [hf])]
  have hrel : onRelease hotkey s key =
      ({ recording := false, recorder := { frames := [], streamOpen := false } },
        ReleaseOut.noAudio) := by
    unfold onRelease
    rw [hm, hr]
    simp [hstop]
  refine ⟨by rw [hstop], by rw [hrel], by rw [hrel], ?_⟩
  intro audio
  rw [hrel]
  simp

/-- Witness for C5 at a concrete input: ctrl_l released while recording with
an empty frame list. -/
theorem c5_empty_capture_no_dispatch_witness :
    (Recorder.stop { frames := [], streamOpen := true }).1 = []
    ∧ (onRelease (PKey.special "ctrl_l")
         { recording := true, recorder := { frames := [], streamOpen := true } }
         (PKey.special "ctrl_l")).2 = ReleaseOut.noAudio
    ∧ (onRelease (PKey.special "ctrl_l")
         { recording := true, recorder := { frames := [], streamOpen := true } }
         (PKey.special "ctrl_l")).1.recording = false
    ∧ ∀ audio, (onRelease (PKey.special "ctrl_l")
         { recording := true, recorder := { frames := [], streamOpen := true } }
         (PKey.special "ctrl_l")).2 ≠ ReleaseOut.dispatch audio :=
  c5_empty_capture_no_dispatch (PKey.special "ctrl_l") (PKey.special "ctrl_l")
    { recording := true, recorder := { frames := [], streamOpen := true } }
    (by decide) (by decide) (by decide)

/-- C6: stopping a non-empty capture concatenates the chunks in arrival order
and averages each sample across channels; on the two-channel buffer
`[(0.2, 0.4), (0.0, 1.0)]` the mono result is `[0.3, 0.5]`. -/
theorem c6_stop_concatenates_and_averages (r : Recorder) (h : r.frames ≠ []) :
    (r.stop).1 = r.frames.flatten.map (fun row => row.sum / (row.length : ℚ))
    ∧ (Recorder.stop
         { frames := [[[2/10, 4/10], [0, 1]]], streamOpen := true }).1
        = [3/10, 5/10] := by
  constructor
  · unfold Recorder.stop
    rw [if_neg (by simp [h])]
    rw [npConcatenate_eq_flatten]
    rfl
  · unfold Recorder.stop
    rw [if_neg (by simp)]
    show npMeanAxis1 ([[2/10, 4/10], [0, 1]] ++ []) = [3/10, 5/10]
    unfold npMeanAxis1
    norm_num

/-- Witness for C6 at a concrete input: a single two-chunk capture. -/
theorem c6_stop_concatenates_and_averages_witness :
    (Recorder.stop
        { frames := [[[1, 3]], [[5, 7]]], streamOpen := true }).1
      = [[[1, 3]], [[5, 7]]].flatten.map
          (fun row => row.sum / (row.length : ℚ)) :=
  (c6_stop_concatenates_and_averages
      { frames := [[[(1 : ℚ), 3]], [[5, 7]]], streamOpen := true }
      (by decide)).1

/-- C7: a hotkey configured as "ctrl" resolves to the left-ctrl key, the
matching predicate accepts both the left and the right physical ctrl key, and
the press and release handlers treat the two variants identically in every
state. -/
theorem c7_ctrl_left_right_equivalence :
    resolveHotkey "ctrl" = Except.ok (PKey.special "ctrl_l")
    ∧ keyMatches (PKey.special "ctrl_l") (PKey.special "ctrl_l") = true
    ∧ keyMatches (PKey.special "ctrl_l") (PKey.special "ctrl_r") = true
    ∧ ∀ s : AppState,
        onPress (PKey.special "ctrl_l") s (PKey.special "ctrl_l")
          = onPress (PKey.special "ctrl_l") s (PKey.special "ctrl_r")
        ∧ onRelease (PKey.special "ctrl_l") s (PKey.special "ctrl_l")
          = onRelease (PKey.special "ctrl_l") s (PKey.special "ctrl_r") := by
  have hl : keyMatches (PKey.special "ctrl_l") (PKey.special "ctrl_l") = true := by
    decide
  have hr : keyMatches (PKey.special "ctrl_l") (PKey.special "ctrl_r") = true := by
    decide
  refine ⟨rfl, hl, hr, ?_⟩
  intro s
  constructor
  · unfold onPress
    rw [hl, hr]
  · unfold onRelease
    rw [hl, hr]

/-- C8: hotkey resolution succeeds exactly when the lowercased spec is a
recognized special-key name or the spec is a single character; every other
spec makes resolution — and hence `App` construction, which resolves the
hotkey before any listener starts — fail with the invalid-hotkey error. -/
theorem c8_resolution_succeeds_iff (spec : String) :
    (exceptOk (resolveHotkey spec) = true ↔
       pyLower spec ∈ recognizedHotkeyNames ∨ spec.length = 1)
    ∧ exceptOk (App.build spec) = exceptOk (resolveHotkey spec)
    ∧ (¬(pyLower spec ∈ recognizedHotkeyNames ∨ spec.length = 1) →
        resolveHotkey spec = Except.error ("Unknown hotkey: " ++ spec)) := by
  have hmem : (_SPECIAL_KEYS.lookup (pyLower spec)).isSome = true ↔
      pyLower spec ∈ recognizedHotkeyNames := by
    have hkeys : _SPECIAL_KEYS.map Prod.fst = recognizedHotkeyNames := rfl
    rw [← hkeys]
    exact lookup_isSome_iff_mem_keys _ _
  cases hlk : _SPECIAL_KEYS.lookup (pyLower spec) with
  | some k =>
    have hm : pyLower spec ∈ recognizedHotkeyNames := by
      rw [← hmem, hlk]; rfl
    refine ⟨?_, ?_, ?_⟩
    · simp [resolveHotkey, hlk, exceptOk, hm]
    · simp [resolveHotkey, App.build, hlk, exceptOk]
    · intro hno; exact absurd (Or.inl hm) hno
  | none =>
    have hm : pyLower spec ∉ recognizedHotkeyNames := by
      intro h
      have h2 := hmem.mpr h
      rw [hlk] at h2
      simp at h2
    by_cases hlen : spec.length = 1
    · refine ⟨?_, ?_, ?_⟩
      · simp [resolveHotkey, hlk, hlen, exceptOk]
      · simp [resolveHotkey, App.build, hlk, hlen, exceptOk]
      · intro hno; exact absurd (Or.inr hlen) hno
    · refine ⟨?_, ?_, ?_⟩
      · simp [resolveHotkey, hlk, hlen, exceptOk, hm]
      · simp [resolveHotkey, App.build, hlk, hlen, exceptOk]
      · intro _; simp [resolveHotkey, hlk, hlen]

/-- Witness for C8 at a concrete input: the spec "bogus" is neither a
recognized name nor a single character and is rejected with the
invalid-hotkey error. -/
theorem c8_resolution_succeeds_iff_witness :
    resolveHotkey "bogus" = Except.error ("Unknown hotkey: " ++ "bogus") :=
  (c8_resolution_succeeds_iff "bogus").2.2 (by decide)

/-- C3: on non-blank input, a missing API key or an exception from the
cleanup API call makes `cleanup` return exactly the raw input text — never an
empty string, and the call returns normally rather than raising. -/
theorem c3_cleanup_falls_back_to_raw (callApi : String → Except String String)
    (p : Processor) (rawText : String) (hnb : pyStrip rawText ≠ "") :
    (p.apiKey = "" →
       (p.cleanup callApi rawText).1 = rawText
       ∧ (p.cleanup callApi rawText).1 ≠ "")
    ∧ (∀ e, callApi rawText = Except.error e →
       (p.cleanup callApi rawText).1 = rawText
       ∧ (p.cleanup callApi rawText).1 ≠ "") := by
  have hne : rawText ≠ "" := by
    intro h
    apply hnb
    rw [h]
    exact pyStrip_empty
  constructor
  · intro hkey
    unfold Processor.cleanup
    rw [if_neg hnb, if_pos hkey]
    exact ⟨rfl, hne⟩
  · intro e herr
    unfold Processor.cleanup
    rw [if_neg hnb]
    by_cases hkey : p.apiKey = ""
    · rw [if_pos hkey]
      exact ⟨rfl, hne⟩
    · rw [if_neg hkey]
      simp only [herr]
      exact ⟨trivial, hne⟩

/-- Witness for C3 at a concrete input: non-blank text "hi um" with an
always-raising API call and a configured key falls back to the raw text. -/
theorem c3_cleanup_falls_back_to_raw_witness :
    (Processor.cleanup (fun _ => Except.error "network down")
        { apiKey := "sk-test", clientBuilt := false } "hi um").1 = "hi um"
    ∧ (Processor.cleanup (fun _ => Except.error "network down")
        { apiKey := "sk-test", clientBuilt := false } "hi um").1 ≠ "" :=
  (c3_cleanup_falls_back_to_raw (fun _ => Except.error "network down")
      { apiKey := "sk-test", clientBuilt := false } "hi um"
      (by decide)).2 "network down" rfl

/-- C10: blank (empty or all-whitespace) input short-circuits `cleanup`: the
input comes back unchanged, the processor state is untouched (no API client
is built) and no network call is made, whatever the configured key. -/
theorem c10_cleanup_blank_short_circuits (callApi : String → Except String String)
    (p : Processor) (rawText : String) (hb : pyStrip rawText = "") :
    p.cleanup callApi rawText = (rawText, p, []) := by
  unfold Processor.cleanup
  rw [if_pos hb]

/-- Witness for C10 at a concrete input: whitespace-only input with a
configured key and an API call that would answer. -/
theorem c10_cleanup_blank_short_circuits_witness :
    Processor.cleanup (fun _ => Except.ok "cleaned")
        { apiKey := "sk-test", clientBuilt := false } "  \t "
      = ("  \t ", { apiKey := "sk-test", clientBuilt := false }, []) :=
  c10_cleanup_blank_short_circuits (fun _ => Except.ok "cleaned")
    { apiKey := "sk-test", clientBuilt := false } "  \t " (by decide)

/-- C9: transcribing a zero-length audio buffer returns the empty string with
the transcriber state untouched, so the warm-up thread `App.run` starts —
which transcribes the empty array — never causes the Whisper model to be
loaded. -/
theorem c9_empty_audio_skips_model_load (engine : List ℚ → List String)
    (t : Transcriber) :
    t.transcribe engine [] = ("", t)
    ∧ warmupRun engine { modelLoaded := false } =
        ("", { modelLoaded := false })
    ∧ ((warmupRun engine { modelLoaded := false }).2).modelLoaded = false :=
  ⟨rfl, rfl, rfl⟩

theorem process_final_insert_independent (env env2 : PipelineEnv)
    (p : Pipeline) (audio : List ℚ) (heng : env2.engine = env.engine)
    (hapi : env2.callApi = env.callApi) :
    (process env2 p audio).final = (process env p audio).final := by
  unfold process
  rw [heng, hapi]
  by_cases hraw : (p.transcriber.transcribe env.engine audio).1 = ""
  · simp [hraw]
  · cases hp : p.processor with
    | none =>
      simp only [hp, if_neg hraw]
      cases env2.insertText (p.transcriber.transcribe env.engine audio).1 <;>
        cases env.insertText (p.transcriber.transcribe env.engine audio).1 <;>
          rfl
    | some proc =>
      simp only [hp, if_neg hraw]
      cases env2.insertText
          (proc.cleanup env.callApi
            (p.transcriber.transcribe env.engine audio).1).1 <;>
        cases env.insertText
            (proc.cleanup env.callApi
              (p.transcriber.transcribe env.engine audio).1).1 <;>
          rfl

/-- C4: when transcription yields a blank string, the run stops after
reporting "no speech detected" — the cleanup collaborator and the insertion
collaborator are never invoked (the transcribe wrapper strips its output, so
a blank result is the empty string the `if not raw_text` guard catches). -/
theorem c4_blank_transcription_ends_run (env : PipelineEnv) (p : Pipeline)
    (audio : List ℚ)
    (hb : pyStrip (p.transcriber.transcribe env.engine audio).1 = "") :
    (process env p audio).events = [RunEvent.noSpeech]
    ∧ (process env p audio).cleanupCalls = []
    ∧ (process env p audio).insertCalls = [] := by
  have hraw : (p.transcriber.transcribe env.engine audio).1 = "" := by
    rw [← transcribe_fst_stripped env.engine p.transcriber audio]
    exact hb
  unfold process
  simp [hraw]

/-- Witness for C4 at a concrete input: an engine reporting no segments on a
one-sample buffer makes the wrapper return `""`, and the run only reports "no
speech detected". -/
theorem c4_blank_transcription_ends_run_witness :
    (process
        { engine := fun _ => [], callApi := fun _ => Except.ok "x",
          insertText := fun _ => Except.ok () }
        { transcriber := { modelLoaded := false },
          processor := some { apiKey := "sk-test", clientBuilt := false } }
        [1]).events = [RunEvent.noSpeech]
    ∧ (process
        { engine := fun _ => [], callApi := fun _ => Except.ok "x",
          insertText := fun _ => Except.ok () }
        { transcriber := { modelLoaded := false },
          processor := some { apiKey := "sk-test", clientBuilt := false } }
        [1]).cleanupCalls = []
    ∧ (process
        { engine := fun _ => [], callApi := fun _ => Except.ok "x",
          insertText := fun _ => Except.ok () }
        { transcriber := { modelLoaded := false },
          processor := some { apiKey := "sk-test", clientBuilt := false } }
        [1]).insertCalls = [] :=
  c4_blank_transcription_ends_run
    { engine := fun _ => [], callApi := fun _ => Except.ok "x",
      insertText := fun _ => Except.ok () }
    { transcriber := { modelLoaded := false },
      processor := some { apiKey := "sk-test", clientBuilt := false } }
    [1] (by rfl)

/-- C2: when the insertion collaborator raises on the text a dispatched run
passes it, the exception escaping `_process` is caught by the thread
machinery and reported — the dispatched run terminates with the error in its
event stream instead of crashing, the raw text had already been produced and
reported, and the pipeline state left behind (hence every subsequent run) is
exactly what it would have been under any non-failing insertion
collaborator. -/
theorem c2_insertion_failure_confined (env : PipelineEnv) (p : Pipeline)
    (audio : List ℚ) (ft e : String)
    (hcall : (process env p audio).insertCalls = [ft])
    (herr : env.insertText ft = Except.error e) :
    RunEvent.errorReported e ∈ (dispatchRun env p audio).1
    ∧ RunEvent.rawText (p.transcriber.transcribe env.engine audio).1
        ∈ (dispatchRun env p audio).1
    ∧ (∀ env2 : PipelineEnv, env2.engine = env.engine →
         env2.callApi = env.callApi →
         (dispatchRun env2 p audio).2 = (dispatchRun env p audio).2) := by
  have hindep : ∀ env2 : PipelineEnv, env2.engine = env.engine →
      env2.callApi = env.callApi →
      (dispatchRun env2 p audio).2 = (dispatchRun env p audio).2 := by
    intro env2 heng hapi
    unfold dispatchRun
    exact process_final_insert_independent env env2 p audio heng hapi
  refine ⟨?_, ?_, hindep⟩
  all_goals
    by_cases hraw : (p.transcriber.transcribe env.engine audio).1 = ""
  all_goals
    first
    | (exfalso
       have hnone : (process env p audio).insertCalls = [] := by
         unfold process
         simp [hraw]
       rw [hnone] at hcall
       exact List.noConfusion hcall)
    | skip
  all_goals
    cases hp : p.processor with
    | none =>
      have hft : ft = (p.transcriber.transcribe env.engine audio).1 := by
        have hic : (process env p audio).insertCalls =
            [(p.transcriber.transcribe env.engine audio).1] := by
          unfold process
          simp only [hp, if_neg hraw]
          cases env.insertText (p.transcriber.transcribe env.engine audio).1 <;>
            rfl
        rw [hic] at hcall
        exact (List.cons.injEq _ _ _ _ ▸ hcall).1.symm
      subst hft
      unfold dispatchRun
      unfold process
      simp [hp, if_neg hraw, herr]
    | some proc =>
      have hft : ft =
          (proc.cleanup env.callApi
            (p.transcriber.transcribe env.engine audio).1).1 := by
        have hic : (process env p audio).insertCalls =
            [(proc.cleanup env.callApi
                (p.transcriber.transcribe env.engine audio).1).1] := by
          unfold process
          simp only [hp, if_neg hraw]
          cases env.insertText
              (proc.cleanup env.callApi
                (p.transcriber.transcribe env.engine audio).1).1 <;>
            rfl
        rw [hic] at hcall
        exact (List.cons.injEq _ _ _ _ ▸ hcall).1.symm
      subst hft
      unfold dispatchRun
      unfold process
      simp [hp, if_neg hraw, herr]

/-- Witness for C2 at a concrete input: the paste collaborator raises on
"hello world"; the dispatched run still reports the raw text and surfaces
the insertion error in its event stream. -/
theorem c2_insertion_failure_confined_witness :
    RunEvent.errorReported "paste failed" ∈
      (dispatchRun
          { engine := fun _ => ["hello world"],
            callApi := fun _ => Except.ok "x",
            insertText := fun _ => Except.error "paste failed" }
          { transcriber := { modelLoaded := false }, processor := none }
          [1]).1
    ∧ RunEvent.rawText "hello world" ∈
      (dispatchRun
          { engine := fun _ => ["hello world"],
            callApi := fun _ => Except.ok "x",
            insertText := fun _ => Except.error "paste failed" }
          { transcriber := { modelLoaded := false }, processor := none }
          [1]).1 := by
  have h := c2_insertion_failure_confined
    { engine := fun _ => ["hello world"],
      callApi := fun _ => Except.ok "x",
      insertText := fun _ => Except.error "paste failed" }
    { transcriber := { modelLoaded := false }, processor := none }
    [1] "hello world" "paste failed" (by rfl) (by rfl)
  exact ⟨h.1, h.2.1⟩
